import Mathlib

/-!
Verification development for the PyMsBayes core: the header-pattern
classifier, prior-file projection, the sample summarizer, the worker
lifecycle, the worker pool, and the merged-file replicate check.

Each definition is a shallow embedding of the corresponding Python code
(`pymsbayes/workers.py`, `pymsbayes/utils/stats.py`, `scripts/dmc.py`);
functions of the repository that are imported from modules not present in
the source tree are modelled from the design document and marked as such.
-/

namespace PyMsBayes

/-! ### Regex pattern matchers (workers.py lines 27-63)

Python `re.match` anchors at the start of the string; the pattern may stop
before the end of the string unless it ends with an anchor.  Each compiled
pattern of the module is embedded as an executable predicate on strings
with exactly the `re.match` semantics of that pattern.
-/

/-- Python `\s` character class (ASCII, as in the Python 2 `str` patterns). -/
def isPySpace (c : Char) : Bool :=
  c == ' ' || c == '\t' || c == '\n' || c == '\x0d' || c == '\x0c' || c == '\x0b'

/-- Drop the characters consumed by a leading `\s*`. -/
def dropSpaces (cs : List Char) : List Char :=
  cs.dropWhile isPySpace

/-- Does the character list start with the literal? -/
def strStarts : List Char → List Char → Bool
  | [], _ => true
  | _ :: _, [] => false
  | p :: ps, c :: cs => p == c && strStarts ps cs

/-- Consume a literal from the front of the character list, if present. -/
def dropLit (lit : List Char) (cs : List Char) : Option (List Char) :=
  if strStarts lit cs then some (cs.drop lit.length) else none

/-- `\d` matches at the current position (at least one digit for `\d+`). -/
def startsWithDigit : List Char → Bool
  | [] => false
  | c :: _ => c.isDigit

/-- `\S+\s*$` matches the rest of the string: a nonempty run of
non-whitespace followed only by whitespace. -/
def nonSpaceRunThenSpaces (cs : List Char) : Bool :=
  !(cs.takeWhile (fun c => !isPySpace c)).isEmpty &&
    (cs.dropWhile (fun c => !isPySpace c)).all isPySpace

/-- A pattern is embedded as its `re.match` predicate. -/
abbrev Pattern := String → Bool

/-- `re.compile(r'\s*PRI\.(?!numTauClass)\S+\s*$')` (workers.py line 28). -/
def matchParameterPattern (s : String) : Bool :=
  match dropLit "PRI.".data (dropSpaces s.data) with
  | none => false
  | some rest =>
      !strStarts "numTauClass".data rest && nonSpaceRunThenSpaces rest

/-- `re.compile(r'\s*pi\.\d+\s*')` (workers.py line 31). -/
def matchPiPattern (s : String) : Bool :=
  match dropLit "pi.".data (dropSpaces s.data) with
  | none => false
  | some rest => startsWithDigit rest

/-- `re.compile(r'\s*wattTheta\.\d+\s*')` (workers.py line 32). -/
def matchWattThetaPattern (s : String) : Bool :=
  match dropLit "wattTheta.".data (dropSpaces s.data) with
  | none => false
  | some rest => startsWithDigit rest

/-- `re.compile(r'\s*pi\.net\.\d+\s*')` (workers.py line 33). -/
def matchPiNetPattern (s : String) : Bool :=
  match dropLit "pi.net.".data (dropSpaces s.data) with
  | none => false
  | some rest => startsWithDigit rest

/-- `re.compile(r'\s*tajD\.denom\.\d+\s*')` (workers.py line 34). -/
def matchTajDDenomPattern (s : String) : Bool :=
  match dropLit "tajD.denom.".data (dropSpaces s.data) with
  | none => false
  | some rest => startsWithDigit rest

/-- `re.compile(r'\s*(?!PRI)\S+\s*$')` (workers.py line 37). -/
def matchAllStatPattern (s : String) : Bool :=
  let cs := dropSpaces s.data
  !cs.isEmpty && !strStarts "PRI".data cs && nonSpaceRunThenSpaces cs

/-- `re.compile(r'\s*PRI\.numTauClass\s*')` (workers.py line 40). -/
def matchDummyPattern (s : String) : Bool :=
  strStarts "PRI.numTauClass".data (dropSpaces s.data)

/-- `PARAMETER_PATTERNS` (workers.py lines 27-29). -/
def PARAMETER_PATTERNS : List Pattern := [matchParameterPattern]

/-- `DEFAULT_STAT_PATTERNS` (workers.py lines 30-35). -/
def DEFAULT_STAT_PATTERNS : List Pattern :=
  [matchPiPattern, matchWattThetaPattern, matchPiNetPattern, matchTajDDenomPattern]

/-- `ALL_STAT_PATTERNS` (workers.py lines 36-38). -/
def ALL_STAT_PATTERNS : List Pattern := [matchAllStatPattern]

/-- `DUMMY_PATTERNS` (workers.py lines 39-41). -/
def DUMMY_PATTERNS : List Pattern := [matchDummyPattern]

/-! ### Header classification (workers.py lines 77-86) -/

/-- Modelled from the spec: `pymsbayes.utils.functions.get_indices_of_patterns`
is imported by workers.py but its module is not in the source tree.  Per the
design document the classifier maps each column name to a category by its
matching rules, and the index getters return the indices of the header
entries matched by some rule of the given set, each index at most once, in
ascending original order. -/
def get_indices_of_patterns (target_list : List String) (patterns : List Pattern) :
    List Nat :=
  (List.range target_list.length).filter
    (fun i => patterns.any (fun p => p (target_list.getD i "")))

/-- `get_parameter_indices` (workers.py lines 77-78); the Python default for
`parameter_patterns` is `PARAMETER_PATTERNS`. -/
def get_parameter_indices (header_list : List String) (parameter_patterns : List Pattern) :
    List Nat :=
  get_indices_of_patterns header_list parameter_patterns

/-- `get_stat_indices` (workers.py lines 80-83); the Python default for
`stat_patterns` is `DEFAULT_STAT_PATTERNS`, and a falsy (empty) rule set is
replaced by `ALL_STAT_PATTERNS`. -/
def get_stat_indices (header_list : List String) (stat_patterns : List Pattern) :
    List Nat :=
  get_indices_of_patterns header_list
    (if stat_patterns.isEmpty then ALL_STAT_PATTERNS else stat_patterns)

/-- `get_dummy_indices` (workers.py lines 85-86); the Python default for
`dummy_patterns` is `DUMMY_PATTERNS`. -/
def get_dummy_indices (header_list : List String) (dummy_patterns : List Pattern) :
    List Nat :=
  get_indices_of_patterns header_list dummy_patterns

/-! ### Prior files and column projection (workers.py lines 68-153)

A delimited file is modelled as its header line (split into column names)
followed by its data rows (each split into cells); `parse_header` of the
code returns the first component.
-/

/-- A delimited table file: the first line split into column names, and the
remaining lines split into cells (workers.py `parse_header`, lines 68-75). -/
structure PriorFile where
  header : List String
  rows : List (List String)
deriving DecidableEq

/-- Modelled from the spec: `pymsbayes.utils.functions.reduce_columns` is
imported by workers.py but its module is not in the source tree.  Per the
design document the Column Projector streams the input row by row, emits
only the requested column indices in the requested (ascending) order
joined by the tab separator — optionally with an extra trailing delimiter —
and fails fast when a requested index exceeds the row's column count. -/
def reduce_columns (lines : List (List String)) (column_indices : List Nat)
    (extra_tab : Bool) : Except String (List String) :=
  lines.mapM (fun row => do
    let cells ← column_indices.mapM (fun i =>
      if i < row.length then Except.ok (row.getD i "")
      else Except.error "column index exceeds row length")
    Except.ok (String.intercalate "\t" cells ++ (if extra_tab then "\t" else "")))

/-- The sorted index list that `prior_for_msreject` projects (workers.py
lines 144-147 and 150): parameter indices, then stat indices, then dummy
indices, sorted ascending.  Line 147 passes the module constant
`DUMMY_PATTERNS` rather than the function's `dummy_patterns` argument. -/
def msreject_indices (header : List String)
    (stat_patterns parameter_patterns : List Pattern) : List Nat :=
  List.insertionSort (fun a b => a ≤ b)
    (get_parameter_indices header parameter_patterns ++
      get_stat_indices header stat_patterns ++
      get_dummy_indices header DUMMY_PATTERNS)

/-- `prior_for_msreject` (workers.py lines 137-153): classify the header,
project the selected columns (skipping the header line unless
`include_header`, with an extra trailing tab), and return the selected
column names in ascending original order.  The `dummy_patterns` argument is
accepted but never used: line 147 reads the constant `DUMMY_PATTERNS`. -/
def prior_for_msreject (in_file : PriorFile)
    (stat_patterns parameter_patterns dummy_patterns : List Pattern)
    (include_header : Bool) : Except String (List String × List String) :=
  let header := in_file.header
  let indices := msreject_indices header stat_patterns parameter_patterns
  let lines := if include_header then header :: in_file.rows else in_file.rows
  do
    let out ← reduce_columns lines indices true
    Except.ok (out, indices.map (fun i => header.getD i ""))

/-! ### Merging prior files and the replicate-count check (dmc.py lines 460-470) -/

/-- Modelled from the spec: `pymsbayes.workers.merge_prior_files` is called
by dmc.py but is not among the workers.py definitions in the source tree.
Per the design document the File Merger concatenates projected files known
to share an identical header, emitting the header exactly once and then all
data rows of each input in the order the inputs are supplied. -/
def merge_prior_files (paths : List PriorFile) : Option PriorFile :=
  match paths with
  | [] => none
  | f :: rest =>
      if rest.all (fun g => g.header = f.header) then
        some ⟨f.header, (paths.map (fun g => g.rows)).flatten⟩
      else
        none

/-- Modelled from the spec: `pymsbayes.utils.parsing.line_count` with
`ignore_headers=True` is called by dmc.py but its module is not in the
source tree.  Per the design document it computes the total emitted
data-row count of the merged file, ignoring the header line. -/
def line_count_ignore_headers (f : PriorFile) : Nat :=
  f.rows.length

/-- The replicate-count check of the simulation branch (dmc.py lines
464-470): raise exactly when the merged file's data-row count differs from
the requested number of replicates. -/
def check_observed_sims (reps : Nat) (merged : PriorFile) : Except String Unit :=
  if line_count_ignore_headers merged ≠ reps then
    Except.error ("The number of observed simulations generated does not " ++
      "match the number of reps")
  else
    Except.ok ()

/-! ### Running statistics (stats.py lines 12-77)

Samples are modelled as exact rationals; the sample variance carries the
documented n = 1 convention as the top element of `WithTop`, and the
standard deviation maps through the real square root.
-/

/-- The mutable state of `SampleSummarizer` (stats.py lines 13-19). -/
structure SampleSummarizer where
  name : String
  _min : Option ℚ
  _max : Option ℚ
  _n : Nat
  _sum : ℚ
  _sum_of_squares : ℚ
deriving DecidableEq

/-- A fresh `SampleSummarizer()` with the default name (stats.py lines 13-19). -/
def summarizerInit : SampleSummarizer :=
  ⟨"sample summarizer", none, none, 0, 0, 0⟩

/-- Python truthiness of the `_min`/`_max` slots: `not self._min` is true
both for `None` and for a stored value equal to zero. -/
def optFalsy : Option ℚ → Bool
  | none => true
  | some q => q == 0

/-- `SampleSummarizer.add_sample` (stats.py lines 21-32), including the
falsy `if not self._min` / `if not self._max` guards of lines 25 and 29. -/
def add_sample (s : SampleSummarizer) (x : ℚ) : SampleSummarizer :=
  { s with
    _n := s._n + 1
    _sum := s._sum + x
    _sum_of_squares := s._sum_of_squares + x * x
    _min :=
      if optFalsy s._min then some x
      else if x < s._min.getD 0 then some x
      else s._min
    _max :=
      if optFalsy s._max then some x
      else if x > s._max.getD 0 then some x
      else s._max }

/-- `SampleSummarizer.update_samples` (stats.py lines 34-36). -/
def update_samples (s : SampleSummarizer) (xs : List ℚ) : SampleSummarizer :=
  xs.foldl add_sample s

/-- The `minimum` property (stats.py lines 43-49). -/
def minimum (s : SampleSummarizer) : Option ℚ := s._min

/-- The `maximum` property (stats.py lines 46-50). -/
def maximum (s : SampleSummarizer) : Option ℚ := s._max

/-- The `mean` property (stats.py lines 52-55): undefined below one sample,
otherwise the running sum divided by the count. -/
def mean (s : SampleSummarizer) : Option ℚ :=
  if s._n < 1 then none else some (s._sum / s._n)

/-- The `variance` property (stats.py lines 57-62): undefined below one
sample, positive infinity at exactly one sample, otherwise the unbiased
sum-of-squares formula. -/
def variance (s : SampleSummarizer) : Option (WithTop ℚ) :=
  if s._n < 1 then none
  else if s._n = 1 then some ⊤
  else some (((s._sum_of_squares - (s._sum / s._n) * s._sum) / ((s._n : ℚ) - 1) : ℚ))

/-- The `pop_variance` property (stats.py lines 69-72): undefined below one
sample, otherwise the biased formula dividing by the count. -/
def pop_variance (s : SampleSummarizer) : Option ℚ :=
  if s._n < 1 then none
  else some ((s._sum_of_squares - (s._sum / s._n) * s._sum) / (s._n : ℚ))

/-- The `std_deviation` property (stats.py lines 64-67): undefined below one
sample, otherwise the square root of the sample variance (with the square
root of the infinite n = 1 convention remaining infinite). -/
noncomputable def std_deviation (s : SampleSummarizer) : Option (WithTop ℝ) :=
  if s._n < 1 then none
  else (variance s).map (fun v => WithTop.map (fun q => Real.sqrt q) (WithTop.map (fun q : ℚ => (q : ℝ)) v))

/-! ### The Worker lifecycle (workers.py lines 159-254)

`Worker.run` drives one external process.  The process itself is external
input: its exit code and captured error-stream text are parameters of the
embedding, as is the outcome of the subclass `_post_process` hook.  The
embedding returns the list of messages placed on the result queue together
with the outcome of `run` (normal return, or the Python exception raised).
-/

/-- The Python exceptions relevant to the worker lifecycle. -/
inductive PyError where
  | nameError (missing : String)
  | workerExecutionError (msg : String)
  | valueError (msg : String)
  | postProcessingError (msg : String)
deriving DecidableEq

/-- One message of the result queue (workers.py line 233: a dict holding
the subprocess exit code). -/
structure QueueMsg where
  exit_code : Int
deriving DecidableEq

/-- The worker state touched by `run`/`finish` (workers.py lines 161-175). -/
structure WorkerState where
  name : String
  pid : Nat
  stderr_path : Option String
  finished : Bool
  subprocess_exit_code : Option Int
deriving DecidableEq

/-- The observable outcome of the external process: its exit code and the
text captured on its error stream (via the pipe, or re-read from
`stderr_path` when redirection was requested). -/
structure ProcOutcome where
  exit_code : Int
  stderr : String
deriving DecidableEq

/-- `Worker.run` (workers.py lines 206-242) after the external process has
exited with outcome `proc`, with `post` the outcome of the subclass
`_post_process` hook (lines 235-242 re-raise its failure after logging).

On a non-zero exit code the code reaches line 230, `send_error('execution
failed')`: the module has no global `send_error` (the method is
`self.send_error`), so the lookup raises `NameError` before line 231 can
raise `WorkerExecutionError`, and nothing is placed on the queue.  On a
zero exit code a single message carrying the exit code is enqueued (lines
233-234) before `_post_process` runs. -/
def workerRun (w : WorkerState) (proc : ProcOutcome) (post : Except PyError Unit) :
    List QueueMsg × Except PyError Unit :=
  if proc.exit_code ≠ 0 then
    ([], Except.error (PyError.nameError "send_error"))
  else
    (({ exit_code := proc.exit_code } : QueueMsg) :: [],
      match post with
      | Except.ok _ => Except.ok ()
      | Except.error e => Except.error e)

/-- `Worker.finish` (workers.py lines 244-248), applied to the message
retrieved from the result queue: record the subprocess exit code and set
the finished flag (the base `_finish` hook changes nothing). -/
def workerFinish (w : WorkerState) (msg : QueueMsg) : WorkerState :=
  { w with subprocess_exit_code := some msg.exit_code, finished := true }

/-- A concrete worker state for evaluating the lifecycle. -/
def sampleWorker : WorkerState :=
  ⟨"MsBayesWorker-1", 4242, none, false, none⟩

/-! ### MsRejectWorker construction (workers.py lines 366-383)

`Worker.__init__` (line 375) runs first and raises `ValueError` unless a
`TempFileSystem` is supplied (lines 164-167); afterwards line 378 executes
`self.exe_path = e`, and `e` is bound nowhere — not locally, not in the
module, not in builtins — so the lookup raises `NameError`.  The remaining
constructor arguments never matter.  The embedding keeps them and models
the supplied `temp_fs` by whether it is a `TempFileSystem`.
-/

/-- The fields `MsRejectWorker.__init__` would populate (workers.py lines
377-383). -/
structure MsRejectWorker where
  name : String
  exe_path : String
  prior_path : String
  out_path : String
  tolerance : ℚ
  stats : List String
  kill_received : Bool
deriving DecidableEq

/-- `MsRejectWorker.__init__` (workers.py lines 368-383): the base
initializer's `temp_fs` validation (lines 164-167) raises `ValueError`
first; otherwise line 378 (`self.exe_path = e`) raises `NameError` because
`e` is undefined.  No construction path returns an instance. -/
def msRejectWorkerInit (temp_fs_is_TempFileSystem : Bool)
    (exe_path prior_path out_path : String) (tolerance : ℚ)
    (stats : List String) : Except PyError MsRejectWorker :=
  if !temp_fs_is_TempFileSystem then
    Except.error (PyError.valueError
      "All workers require a TempFileSystem at initiation")
  else
    Except.error (PyError.nameError "e")

/-! ### The worker pool (spec section 4.6)

Modelled from the spec: `Manager.run_workers` is called by dmc.py but the
`pymsbayes.manager` module is not in the source tree.  Per the design
document the pool maintains a live set bounded by `maxParallel`, admits the
next queued worker whenever a slot frees, and returns only once every
submitted worker has completed or raised.  Workers are identified by
natural numbers; completion order is unspecified, so the pool is a
nondeterministic transition system.
-/

/-- A pool state: workers still queued (in submission order), workers whose
external processes are currently active, and workers already drained
(completed or raised). -/
structure PoolState where
  queued : List Nat
  running : List Nat
  done : List Nat
deriving DecidableEq

/-- Modelled from the spec: one scheduling step of `run_workers` with bound
`K`.  A queued worker is admitted only while fewer than `K` processes are
active; any active worker may complete (or raise) and is then drained. -/
inductive PoolStep (K : Nat) : PoolState → PoolState → Prop
  | dispatch (w : Nat) (rest : List Nat) (s : PoolState) :
      s.running.length < K → s.queued = w :: rest →
      PoolStep K s ⟨rest, w :: s.running, s.done⟩
  | complete (w : Nat) (s : PoolState) :
      w ∈ s.running →
      PoolStep K s ⟨s.queued, s.running.erase w, w :: s.done⟩

/-- The pool state at the start of `run_workers`: every submitted worker
queued, none active, none drained. -/
def poolInit (workers : List Nat) : PoolState :=
  ⟨workers, [], []⟩

/-- Reachability of a pool state during one `run_workers` call. -/
def poolReachable (K : Nat) (workers : List Nat) (s : PoolState) : Prop :=
  Relation.ReflTransGen (PoolStep K) (poolInit workers) s

/-- Modelled from the spec: `run_workers` returns exactly when no worker is
queued or active any more. -/
def poolReturns (s : PoolState) : Prop :=
  s.queued = [] ∧ s.running = []

/-- A concrete projected file with the merge-scenario header and five data
rows, for evaluating the merge and replicate-count check. -/
def projectedFile5 : PriorFile :=
  ⟨["a", "b", "c"], List.replicate 5 ["0", "1", "2"]⟩

/-- The merge of three copies of `projectedFile5`: one header line and
fifteen data rows. -/
def mergedFile15 : PriorFile :=
  ⟨["a", "b", "c"], List.replicate 15 ["0", "1", "2"]⟩

/-! ### Helper lemmas about the running statistics accumulator -/

theorem update_samples_cons (s : SampleSummarizer) (x : ℚ) (xs : List ℚ) :
    update_samples s (x :: xs) = update_samples (add_sample s x) xs := rfl

theorem update_samples_n (s : SampleSummarizer) (xs : List ℚ) :
    (update_samples s xs)._n = s._n + xs.length := by
  induction xs generalizing s with
  | nil => simp [update_samples]
  | cons x xs ih =>
      rw [update_samples_cons, ih]
      simp [add_sample]
      omega

theorem update_samples_sum (s : SampleSummarizer) (xs : List ℚ) :
    (update_samples s xs)._sum = s._sum + xs.sum := by
  induction xs generalizing s with
  | nil => simp [update_samples]
  | cons x xs ih =>
      rw [update_samples_cons, ih]
      simp [add_sample]
      ring

/-! ### Claim theorems -/

/-- Claim C1 (code bug): on a non-zero subprocess exit code, `Worker.run`
does not raise the documented `WorkerExecutionError` carrying name, PID and
error stream — line 230 (`send_error('execution failed')`) looks up an
undefined module-level name and raises `NameError` first, with nothing
placed on the result queue. -/
theorem worker_run_nonzero_exit_nameError :
    workerRun sampleWorker ⟨1, "simulator crashed"⟩ (Except.ok ()) =
      ([], Except.error (PyError.nameError "send_error")) := rfl

/-- Claim C2: after adding `n` samples, the mean, the sample variance, the
population variance and the standard deviation are all undefined when
`n = 0`; the sample variance is positive infinity and the population
variance is `0` when `n = 1`; and for `n ≥ 1` the mean is the sum of the
samples divided by `n`. -/
theorem summarizer_small_n_conventions (xs : List ℚ) :
    (xs = [] →
      mean (update_samples summarizerInit xs) = none ∧
      variance (update_samples summarizerInit xs) = none ∧
      pop_variance (update_samples summarizerInit xs) = none ∧
      std_deviation (update_samples summarizerInit xs) = none) ∧
    (xs.length = 1 →
      variance (update_samples summarizerInit xs) = some ⊤ ∧
      pop_variance (update_samples summarizerInit xs) = some 0) ∧
    (1 ≤ xs.length →
      mean (update_samples summarizerInit xs) = some (xs.sum / xs.length)) := by
  refine ⟨?_, ?_, ?_⟩
  · rintro rfl
    exact ⟨rfl, rfl, rfl, rfl⟩
  · intro h1
    obtain ⟨a, rfl⟩ := List.length_eq_one.mp h1
    refine ⟨rfl, ?_⟩
    show pop_variance (add_sample summarizerInit a) = some 0
    simp [pop_variance, add_sample, summarizerInit]
  · intro h
    have hn := update_samples_n summarizerInit xs
    have hs := update_samples_sum summarizerInit xs
    have hn0 : (update_samples summarizerInit xs)._n = xs.length := by
      rw [hn]; simp [summarizerInit]
    have hs0 : (update_samples summarizerInit xs)._sum = xs.sum := by
      rw [hs]; simp [summarizerInit]
    have hlt : ¬ (update_samples summarizerInit xs)._n < 1 := by omega
    rw [mean, if_neg hlt, hs0, hn0]

/-- Witness for C2 at concrete inputs: the empty sample list, a singleton
sample list, and the two-sample list `[2, 4]` whose mean is `3`. -/
theorem summarizer_small_n_conventions_witness :
    mean (update_samples summarizerInit ([] : List ℚ)) = none ∧
    variance (update_samples summarizerInit [(3 : ℚ)]) = some ⊤ ∧
    (1 : Nat) ≤ [(2 : ℚ), 4].length ∧
    mean (update_samples summarizerInit [(2 : ℚ), 4]) = some 3 := by
  refine ⟨((summarizer_small_n_conventions []).1 rfl).1,
    ((summarizer_small_n_conventions [3]).2.1 rfl).1, by decide, ?_⟩
  have h := (summarizer_small_n_conventions [(2 : ℚ), 4]).2.2 (by decide)
  rw [h]
  norm_num

/-- Claim C4 (code bug): the falsy guards of `add_sample` (stats.py lines
25 and 29) treat a stored extremum equal to `0` like the initial `None`,
so after the samples `[0, 5]` the reported minimum is `5` (the least sample
added was `0`), and after `[0, -3]` the reported maximum is `-3` (the
greatest sample added was `0`).  On a fresh accumulator both extrema are
undefined, as claimed. -/
theorem summarizer_min_max_zero_bug :
    minimum (update_samples summarizerInit [(0 : ℚ), 5]) = some 5 ∧
    maximum (update_samples summarizerInit [(0 : ℚ), -3]) = some (-3) ∧
    minimum summarizerInit = none ∧
    maximum summarizerInit = none := by decide

/-- Claim C7: with the module's default pattern sets, the header
`[PRI.t.1, PRI.t.2, pi.1, wattTheta.1, PRI.numTauClass]` classifies into
parameter indices `[0, 1]`, stat indices `[2, 3]` and dummy index `[4]`. -/
theorem default_pattern_classification_example :
    get_parameter_indices ["PRI.t.1", "PRI.t.2", "pi.1", "wattTheta.1", "PRI.numTauClass"]
        PARAMETER_PATTERNS = [0, 1] ∧
    get_stat_indices ["PRI.t.1", "PRI.t.2", "pi.1", "wattTheta.1", "PRI.numTauClass"]
        DEFAULT_STAT_PATTERNS = [2, 3] ∧
    get_dummy_indices ["PRI.t.1", "PRI.t.2", "pi.1", "wattTheta.1", "PRI.numTauClass"]
        DUMMY_PATTERNS = [4] := by decide

/-- Claim C9: the `dummy_patterns` argument of `prior_for_msreject` has no
effect — line 147 always reads the module constant `DUMMY_PATTERNS`, so the
projected output and the returned header are identical for any two values
of the argument. -/
theorem prior_for_msreject_ignores_dummy_patterns
    (in_file : PriorFile) (stat_patterns parameter_patterns : List Pattern)
    (dp1 dp2 : List Pattern) (include_header : Bool) :
    prior_for_msreject in_file stat_patterns parameter_patterns dp1 include_header =
      prior_for_msreject in_file stat_patterns parameter_patterns dp2 include_header := rfl

/-- Counterexample to claim C10 as stated: with no `TempFileSystem`
supplied, the base initializer (workers.py lines 164-167) raises
`ValueError` before line 378 can raise the unbound-name error, so not every
argument combination raises a `NameError`. -/
theorem msreject_init_valueError_counterexample :
    msRejectWorkerInit false "msreject" "prior.txt" "posterior.txt" (1 / 1000) ["pi.1"] =
      Except.error (PyError.valueError
        "All workers require a TempFileSystem at initiation") ∧
    PyError.valueError "All workers require a TempFileSystem at initiation" ≠
      PyError.nameError "e" := by
  exact ⟨rfl, by decide⟩

/-- Claim C10 (amended): for every combination of constructor arguments,
`MsRejectWorker.__init__` raises — the unbound-name `NameError` from
`self.exe_path = e` (workers.py line 378) whenever the base initializer's
`TempFileSystem` validation passes — and consequently no `MsRejectWorker`
instance is ever created. -/
theorem msreject_init_never_constructs
    (temp_fs_ok : Bool) (exe_path prior_path out_path : String)
    (tolerance : ℚ) (stats : List String) :
    (∀ inst : MsRejectWorker,
        msRejectWorkerInit temp_fs_ok exe_path prior_path out_path tolerance stats ≠
          Except.ok inst) ∧
    (temp_fs_ok = true →
        msRejectWorkerInit temp_fs_ok exe_path prior_path out_path tolerance stats =
          Except.error (PyError.nameError "e")) := by
  cases temp_fs_ok <;> simp [msRejectWorkerInit]

/-- Witness for C10 (amended) at concrete arguments with a valid
`TempFileSystem`: construction raises the unbound-name error. -/
theorem msreject_init_never_constructs_witness :
    msRejectWorkerInit true "msreject" "prior.txt" "posterior.txt" (1 / 1000) ["pi.1"] =
      Except.error (PyError.nameError "e") :=
  (msreject_init_never_constructs true "msreject" "prior.txt" "posterior.txt"
    (1 / 1000) ["pi.1"]).2 rfl

/-- Claim C8: every message `Worker.run` places on the result queue carries
exit code `0` (a non-zero exit raises before line 234 can enqueue), and
`Worker.finish` applied to such a message records subprocess exit code `0`
and sets the finished flag. -/
theorem worker_queue_msgs_exit_code_zero
    (w : WorkerState) (proc : ProcOutcome) (post : Except PyError Unit)
    (m : QueueMsg) (hm : m ∈ (workerRun w proc post).1) :
    m.exit_code = 0 ∧
      (workerFinish w m).subprocess_exit_code = some 0 ∧
      (workerFinish w m).finished = true := by
  by_cases h : proc.exit_code = 0
  · have hm0 : m = ⟨0⟩ := by simpa [workerRun, h] using hm
    subst hm0
    exact ⟨rfl, rfl, rfl⟩
  · simp [workerRun, h] at hm

/-- Witness for C8: a zero-exit run enqueues the message `{exit_code: 0}`,
and finishing on it records exit code `0` with the finished flag set. -/
theorem worker_queue_msgs_exit_code_zero_witness :
    ((⟨0⟩ : QueueMsg) ∈ (workerRun sampleWorker ⟨0, ""⟩ (Except.ok ())).1) ∧
    (workerFinish sampleWorker ⟨0⟩).subprocess_exit_code = some 0 ∧
    (workerFinish sampleWorker ⟨0⟩).finished = true := by
  have hm : (⟨0⟩ : QueueMsg) ∈ (workerRun sampleWorker ⟨0, ""⟩ (Except.ok ())).1 := by
    decide
  have h := worker_queue_msgs_exit_code_zero sampleWorker ⟨0, ""⟩ (Except.ok ()) ⟨0⟩ hm
  exact ⟨hm, h.2.1, h.2.2⟩

/-- Counterexample to claim C3 as stated: the index getters have no
cross-category precedence.  Passing the parameter rules also as the stat
rule set, the name `PRI.x` is classified as a parameter AND as a stat (not
as a parameter only), and the sorted index list projected by
`prior_for_msreject` contains index `0` twice. -/
theorem msreject_classification_overlap_counterexample :
    get_parameter_indices ["PRI.x"] PARAMETER_PATTERNS = [0] ∧
    get_stat_indices ["PRI.x"] PARAMETER_PATTERNS = [0] ∧
    msreject_indices ["PRI.x"] PARAMETER_PATTERNS PARAMETER_PATTERNS = [0, 0] ∧
    ¬ (msreject_indices ["PRI.x"] PARAMETER_PATTERNS PARAMETER_PATTERNS).Nodup := by
  decide

/-- Claim C3 (amended): each index getter classifies a column name into its
category independently (each index listed at most once per category, in
ascending order, with no precedence between categories); whenever no column
is matched by rules of two distinct categories — in particular under the
default rule sets — the sorted index list projected by `prior_for_msreject`
contains each column index at most once. -/
theorem msreject_indices_nodup_of_disjoint
    (header : List String) (stat_patterns parameter_patterns : List Pattern)
    (hps : ∀ i ∈ get_parameter_indices header parameter_patterns,
      i ∉ get_stat_indices header stat_patterns)
    (hpd : ∀ i ∈ get_parameter_indices header parameter_patterns,
      i ∉ get_dummy_indices header DUMMY_PATTERNS)
    (hsd : ∀ i ∈ get_stat_indices header stat_patterns,
      i ∉ get_dummy_indices header DUMMY_PATTERNS) :
    (msreject_indices header stat_patterns parameter_patterns).Nodup := by
  have np : (get_parameter_indices header parameter_patterns).Nodup :=
    List.Nodup.filter _ (List.nodup_range _)
  have ns : (get_stat_indices header stat_patterns).Nodup :=
    List.Nodup.filter _ (List.nodup_range _)
  have nd : (get_dummy_indices header DUMMY_PATTERNS).Nodup :=
    List.Nodup.filter _ (List.nodup_range _)
  have nps : (get_parameter_indices header parameter_patterns ++
      get_stat_indices header stat_patterns).Nodup :=
    np.append ns (fun a ha hb => hps a ha hb)
  have nall : ((get_parameter_indices header parameter_patterns ++
      get_stat_indices header stat_patterns) ++
      get_dummy_indices header DUMMY_PATTERNS).Nodup := by
    refine nps.append nd (fun a ha hb => ?_)
    rcases List.mem_append.mp ha with hp | hs
    · exact hpd a hp hb
    · exact hsd a hs hb
  exact ((List.perm_insertionSort _ _).nodup_iff).mpr nall

/-- Witness for C3 (amended) at the default rule sets on the example
header: the three categories are pairwise disjoint there, so the projected
sorted index list is duplicate-free. -/
theorem msreject_indices_nodup_of_disjoint_witness :
    (msreject_indices ["PRI.t.1", "PRI.t.2", "pi.1", "wattTheta.1", "PRI.numTauClass"]
      DEFAULT_STAT_PATTERNS PARAMETER_PATTERNS).Nodup :=
  msreject_indices_nodup_of_disjoint _ _ _ (by decide) (by decide) (by decide)

/-- Claim C6: in the simulation branch, after the per-worker prior files
are merged into the observed output, the check of dmc.py lines 464-470
raises exactly when the merged file's data-row count (ignoring the header)
differs from the requested `args.reps`; moreover that data-row count is the
total of the merged inputs' data rows. -/
theorem merged_reps_check_iff
    (reps : Nat) (paths : List PriorFile) (merged : PriorFile)
    (hreps : 1 ≤ reps)
    (hm : merge_prior_files paths = some merged) :
    ((∃ msg, check_observed_sims reps merged = Except.error msg) ↔
        line_count_ignore_headers merged ≠ reps) ∧
      line_count_ignore_headers merged =
        (paths.map (fun f => f.rows.length)).sum := by
  constructor
  · constructor
    · rintro ⟨msg, hmsg⟩ hlc
      simp [check_observed_sims, hlc] at hmsg
    · intro hne
      exact ⟨"The number of observed simulations generated does not " ++
        "match the number of reps", by simp [check_observed_sims, hne]⟩
  · cases paths with
    | nil => simp [merge_prior_files] at hm
    | cons f rest =>
        rw [merge_prior_files] at hm
        split at hm
        · cases hm
          simp [line_count_ignore_headers, List.length_flatten, List.map_map,
            Function.comp_def]
        · cases hm

/-- Witness for C6 on the merge scenario: three projected files sharing the
header with five data rows each merge into fifteen data rows; an expected
count of 15 passes while an expected count of 20 raises. -/
theorem merged_reps_check_iff_witness :
    (¬ ∃ msg, check_observed_sims 15 mergedFile15 = Except.error msg) ∧
    (∃ msg, check_observed_sims 20 mergedFile15 = Except.error msg) ∧
    line_count_ignore_headers mergedFile15 =
      ([projectedFile5, projectedFile5, projectedFile5].map
        (fun f => f.rows.length)).sum := by
  have hm : merge_prior_files [projectedFile5, projectedFile5, projectedFile5] =
      some mergedFile15 := by decide
  have h15 := merged_reps_check_iff 15 _ _ (by decide) hm
  have h20 := merged_reps_check_iff 20 _ _ (by decide) hm
  refine ⟨fun hex => absurd (h15.1.mp hex) (by decide), h20.1.mpr (by decide), h15.2⟩

/-- Claim C5: along every schedule of the pool with bound `K`, no reachable
state has more than `K` external processes simultaneously active, the
submitted workers are conserved, and at any state where `run_workers`
returns every submitted worker has been drained (completed or raised). -/
theorem pool_bound_and_completion
    (K : Nat) (workers : List Nat) (s : PoolState)
    (h : poolReachable K workers s) :
    s.running.length ≤ K ∧
      List.Perm (s.queued ++ s.running ++ s.done) workers ∧
      (poolReturns s → List.Perm s.done workers) := by
  suffices hinv : s.running.length ≤ K ∧
      List.Perm (s.queued ++ s.running ++ s.done) workers by
    refine ⟨hinv.1, hinv.2, fun hr => ?_⟩
    have hperm := hinv.2
    rw [hr.1, hr.2] at hperm
    simpa using hperm
  induction h with
  | refl => exact ⟨Nat.zero_le K, by simp [poolInit]⟩
  | @tail b c hab hbc ih =>
      cases hbc with
      | dispatch w rest _ hK hq =>
          refine ⟨by simpa using hK, ?_⟩
          have hperm := ih.2
          rw [hq] at hperm
          exact ((List.perm_middle).append_right b.done).trans hperm
      | complete w _ hw =>
          refine ⟨?_, ?_⟩
          · have hlen := List.length_erase_of_mem hw
            have hK := ih.1
            simp only [hlen]
            omega
          · have hperm := ih.2
            have hc := List.perm_cons_erase hw
            have h1 : List.Perm ((b.queued ++ b.running.erase w) ++ (w :: b.done))
                (w :: ((b.queued ++ b.running.erase w) ++ b.done)) :=
              List.perm_middle
            have h2 : List.Perm (w :: ((b.queued ++ b.running.erase w) ++ b.done))
                ((b.queued ++ (w :: b.running.erase w)) ++ b.done) := by
              rw [List.append_assoc, List.append_assoc]
              exact List.perm_middle.symm
            have h3 : List.Perm ((b.queued ++ (w :: b.running.erase w)) ++ b.done)
                ((b.queued ++ b.running) ++ b.done) :=
              (hc.symm.append_left b.queued).append_right b.done
            exact ((h1.trans h2).trans h3).trans hperm

/-- Witness for C5: with bound `1`, the single worker `7` is admitted and
then completes; the resulting state is reachable, respects the bound, and
at return the drained set is exactly the submitted set. -/
theorem pool_bound_and_completion_witness :
    (⟨[], [], [7]⟩ : PoolState).running.length ≤ 1 ∧
      List.Perm (⟨[], [], [7]⟩ : PoolState).done [7] := by
  have s1 : PoolStep 1 (poolInit [7]) ⟨[], [7], []⟩ :=
    PoolStep.dispatch 7 [] (poolInit [7]) (by decide) rfl
  have s2 : PoolStep 1 ⟨[], [7], []⟩ ⟨[], [], [7]⟩ :=
    PoolStep.complete 7 ⟨[], [7], []⟩ (by simp)
  have hreach : poolReachable 1 [7] ⟨[], [], [7]⟩ :=
    Relation.ReflTransGen.tail (Relation.ReflTransGen.single s1) s2
  have h := pool_bound_and_completion 1 [7] ⟨[], [], [7]⟩ hreach
  exact ⟨h.1, h.2.2 ⟨rfl, rfl⟩⟩

end PyMsBayes
